import Mathlib

/-!
Shallow embedding of the POS back-office data layer
(`pos_project/core/models.py` and `pos_project/api/serializers.py`).

Monetary and decimal quantities (`DecimalField(..., decimal_places=2)`) are
modelled as `Int` counting hundredths: Python `Decimal` arithmetic on
two-decimal-place values is exact, and every operation the code performs on
them (integer-by-decimal multiplication, summation, sign comparison) maps
exactly onto the scaled integers — e.g. `7.50` is `750`, and
`cantidad * precio_unitario` is the product of the integer quantity with
the scaled price.  UUID primary keys are modelled
as `Nat` (only identity matters).  `estado` values come from the module
`pos_project.choices`, which is not part of the repository; nothing in the
embedded code branches on them, so they are opaque `Int`s.

Database rows live in plain lists; Django ORM operations used by the code
(`objects.get`, `objects.filter(...).exists()`, `objects.create`, reverse
accessors, `on_delete` behaviour) are embedded as list operations on a
`DB` record.
-/

namespace Pos

/-- `GrupoArticulo` (models.py lines 20-31). -/
structure GrupoArticulo where
  grupo_id : Nat
  codigo_grupo : String
  nombre_grupo : String
  estado : Int
deriving DecidableEq, Repr

/-- `LineaArticulo` (models.py lines 33-42); `grupo` is the foreign key to
`GrupoArticulo.grupo_id` (on_delete=RESTRICT). -/
structure LineaArticulo where
  linea_id : Nat
  codigo_linea : String
  grupo : Nat
  nombre_linea : String
  estado : Int
deriving DecidableEq, Repr

/-- `Articulo` (models.py lines 44-58); `grupo` and `linea` are foreign keys
(both on_delete=RESTRICT).  `imagen` is a CharField never supplied by the
embedded serializer flows, hence `Option String`. -/
structure Articulo where
  articulo_id : Nat
  codigo_articulo : String
  codigo_barras : String
  descripcion : String
  presentacion : String
  grupo : Nat
  linea : Nat
  estado : Int
  stock : Int
  imagen : Option String
deriving DecidableEq, Repr

/-- `ListaPrecios` (models.py lines 60-70): one-to-one with `Articulo`
(`articulo` is both the primary key and the FK, on_delete=CASCADE,
related_name equal to "articulo_lista").  `precio_2` through `precio_costo`
are `Option Int` so that the embedding can record which price tiers a given
code path actually populated before the row reaches the database. -/
structure ListaPrecios where
  articulo : Nat
  precio_1 : Int
  precio_2 : Option Int
  precio_3 : Option Int
  precio_4 : Option Int
  precio_compra : Option Int
  precio_costo : Option Int
deriving DecidableEq, Repr

/-- `OrdenCompraCliente` (models.py lines 133-156); `nro_pedido` is the
primary key.  Fields not touched by any embedded operation (uuid
`pedido_id`, dates, `creado_por`) are omitted. -/
structure OrdenCompraCliente where
  nro_pedido : Nat
  cliente : Nat
  vendedor : Nat
  importe : Int
  estado : Int
  notas : String
deriving DecidableEq, Repr

/-- `ItemOrdenCompraCliente` (models.py lines 158-189); `pedido` is the FK to
`OrdenCompraCliente.nro_pedido` (on_delete=CASCADE, related_name equal to
"items_orden_compra"), `articulo` the FK to `Articulo.articulo_id`
(on_delete=RESTRICT).  `cantidad` is a `PositiveIntegerField`, i.e. a
non-negative integer, modelled as `Nat`. -/
structure ItemOrdenCompraCliente where
  item_id : Nat
  pedido : Nat
  nro_item : Nat
  articulo : Nat
  cantidad : Nat
  precio_unitario : Int
  total_item : Int
  estado : Int
deriving DecidableEq, Repr

/-- The database state: one list of rows per embedded table. -/
structure DB where
  grupos : List GrupoArticulo
  lineas : List LineaArticulo
  articulos : List Articulo
  listas : List ListaPrecios
  ordenes : List OrdenCompraCliente
  items : List ItemOrdenCompraCliente
deriving DecidableEq, Repr

/-! ### Reverse one-to-one accessor from `Articulo` to `ListaPrecios`

`ListaPrecios.articulo` declares `related_name` equal to `"articulo_lista"`
(models.py line 61), so that is the ONLY attribute name under which an
`Articulo` instance exposes its price-list row.  `ItemOrdenCompraCliente.save`
(models.py line 176) instead reads `self.articulo.listaprecio`; Python
attribute lookup for any name other than the declared reverse accessor
raises `AttributeError`.  The embedding makes the dynamic lookup explicit:
`articuloGetattr` succeeds only under the declared name, and returns `none`
(the exception case) for every other name or when no row exists. -/

/-- The reverse accessor name declared by `related_name` on
`ListaPrecios.articulo` (models.py line 61). -/
def listaPreciosReverseAccessor : String := "articulo_lista"

/-- Dynamic attribute lookup of a price-list row on an article: `some` only
when the requested attribute is the declared reverse accessor and the row
exists; `none` models `AttributeError` / `RelatedObjectDoesNotExist`. -/
def articuloGetattr (db : DB) (articuloId : Nat) (attr : String) :
    Option ListaPrecios :=
  if attr = listaPreciosReverseAccessor then
    db.listas.find? (fun lp => lp.articulo == articuloId)
  else
    none

/-! ### `ItemOrdenCompraCliente.save` (models.py lines 170-183) -/

/-- The in-memory part of `ItemOrdenCompraCliente.save` before the row is
written (models.py lines 170-180): set `total_item := cantidad *
precio_unitario`; if `precio_unitario == 0`, try `self.articulo.listaprecio`
and, on success, substitute `precio_1` and recompute the total; the bare
`except: pass` swallows any exception. -/
def itemComputeSave (db : DB) (it : ItemOrdenCompraCliente) :
    ItemOrdenCompraCliente :=
  let it1 := { it with total_item := (it.cantidad : Int) * it.precio_unitario }
  if it1.precio_unitario = 0 then
    match articuloGetattr db it1.articulo "listaprecio" with
    | some lp =>
        let it2 := { it1 with precio_unitario := lp.precio_1 }
        { it2 with total_item := (it2.cantidad : Int) * it2.precio_unitario }
    | none => it1
  else
    it1

/-- `super().save()` on an item: update the row with this primary key if it
exists, otherwise insert it at the end. -/
def upsertList (l : List ItemOrdenCompraCliente) (it : ItemOrdenCompraCliente) :
    List ItemOrdenCompraCliente :=
  if l.any (fun x => x.item_id == it.item_id) then
    l.map (fun x => if x.item_id = it.item_id then it else x)
  else
    l ++ [it]

/-- `super().save()` lifted to the database state. -/
def upsertItem (db : DB) (it : ItemOrdenCompraCliente) : DB :=
  { db with items := upsertList db.items it }

/-- The items currently owned by an order: `self.items_orden_compra.all()`
(the reverse accessor declared on `ItemOrdenCompraCliente.pedido`). -/
def itemsOf (db : DB) (pedidoId : Nat) : List ItemOrdenCompraCliente :=
  db.items.filter (fun it => it.pedido == pedidoId)

/-- Write `importe := t` on every order row with this primary key. -/
def setImporte (l : List OrdenCompraCliente) (pedidoId : Nat) (t : Int) :
    List OrdenCompraCliente :=
  l.map (fun o => if o.nro_pedido = pedidoId then { o with importe := t } else o)

/-- `OrdenCompraCliente.actualizar_total` (models.py lines 145-149): sum
`total_item` over ALL items currently owned by the order (no filtering on
`estado`), assign to `importe`, and save the order row. -/
def actualizar_total (db : DB) (pedidoId : Nat) : DB :=
  let total := ((itemsOf db pedidoId).map (fun it => it.total_item)).sum
  { db with ordenes := setImporte db.ordenes pedidoId total }

/-- `ItemOrdenCompraCliente.save` (models.py lines 170-183): compute the
instance fields, write the row, then recompute the parent order total.
Returns the new database state and the in-memory instance after the save. -/
def itemSave (db : DB) (it : ItemOrdenCompraCliente) :
    DB × ItemOrdenCompraCliente :=
  let it1 := itemComputeSave db it
  let db1 := upsertItem db it1
  (actualizar_total db1 it1.pedido, it1)

/-- Deleting an item row.  `ItemOrdenCompraCliente` defines no `delete`
override and no signal, so the delete removes the row and touches nothing
else; in particular the parent order's `importe` is not recomputed. -/
def itemDelete (db : DB) (itemId : Nat) : DB :=
  { db with items := db.items.filter (fun x => x.item_id != itemId) }

/-! ### `on_delete` behaviour of the declared foreign keys

Django derives delete behaviour from the `on_delete` option of each FK:
`ListaPrecios.articulo` is CASCADE (models.py line 61), so a price-list row
is removed together with its article; `Articulo.grupo`, `Articulo.linea`
(lines 50-51), `LineaArticulo.grupo` (line 36) and
`ItemOrdenCompraCliente.articulo` (line 162) are RESTRICT, so deleting a
row still referenced through one of them raises `RestrictedError`. -/

/-- Delete an article: blocked (RESTRICT) while an order item references it;
otherwise the article row and, by CASCADE, its price-list row are removed. -/
def articuloDelete (db : DB) (articuloId : Nat) : Except String DB :=
  if db.items.any (fun it => it.articulo == articuloId) then
    .error "RestrictedError"
  else
    .ok { db with
      articulos := db.articulos.filter (fun a => a.articulo_id != articuloId),
      listas := db.listas.filter (fun lp => lp.articulo != articuloId) }

/-- Delete a group: blocked (RESTRICT) while a line or an article references
it. -/
def grupoDelete (db : DB) (grupoId : Nat) : Except String DB :=
  if db.lineas.any (fun l => l.grupo == grupoId)
      || db.articulos.any (fun a => a.grupo == grupoId) then
    .error "RestrictedError"
  else
    .ok { db with grupos := db.grupos.filter (fun g => g.grupo_id != grupoId) }

/-- Delete a line: blocked (RESTRICT) while an article references it. -/
def lineaDelete (db : DB) (lineaId : Nat) : Except String DB :=
  if db.articulos.any (fun a => a.linea == lineaId) then
    .error "RestrictedError"
  else
    .ok { db with lineas := db.lineas.filter (fun l => l.linea_id != lineaId) }

/-! ### `ArticuloCreateSerializer` (serializers.py lines 161-269)

Validation follows the framework pipeline: each declared field runs its
built-in validators (max_length on CharFields, min_value 0 on `precio_1`)
and then the serializer's `validate_<field>` hook; the errors of all fields
are collected into a field-keyed error map.  Only when no field errored does
the object-level `validate` run.  `create` is called only on success, so a
validation failure writes nothing. -/

/-- The incoming payload of `ArticuloCreateSerializer` (Meta.fields,
serializers.py lines 168-171). -/
structure ArticuloCreateInput where
  codigo_articulo : String
  codigo_barras : String
  descripcion : String
  presentacion : String
  grupo_id : Nat
  linea_id : Nat
  stock : Int
  precio_1 : Int
deriving DecidableEq, Repr

/-- `validate_codigo_articulo` (serializers.py lines 173-184): uniqueness
against the existing articles, then the minimum-length check. -/
def validate_codigo_articulo (db : DB) (value : String) : Option String :=
  if db.articulos.any (fun a => a.codigo_articulo == value) then
    some "Este código de artículo ya existe."
  else if value.length < 4 then
    some "El código debe tener al menos 4 caracteres."
  else
    none

/-- `validate_descripcion` (serializers.py lines 186-198). -/
def validate_descripcion (value : String) : Option String :=
  if value.length < 5 then
    some "La descripción es demasiado corta."
  else if value.length > 150 then
    some "La descripción no debe exceder los 150 caracteres."
  else
    none

/-- `validate_stock` (serializers.py lines 200-207). -/
def validate_stock (value : Int) : Option String :=
  if value < 0 then some "El stock no puede ser negativo." else none

/-- Built-in validation of `codigo_articulo` (CharField max_length 25 from
the model) followed by the `validate_codigo_articulo` hook. -/
def codigoFieldError (db : DB) (value : String) : Option String :=
  if value.length > 25 then some "max_length 25"
  else validate_codigo_articulo db value

/-- Built-in validation of `codigo_barras` (CharField max_length 25). -/
def codigoBarrasFieldError (value : String) : Option String :=
  if value.length > 25 then some "max_length 25" else none

/-- Built-in validation of `descripcion` (CharField max_length 150) followed
by the `validate_descripcion` hook. -/
def descripcionFieldError (value : String) : Option String :=
  if value.length > 150 then some "max_length 150"
  else validate_descripcion value

/-- Built-in validation of `presentacion` (CharField max_length 100). -/
def presentacionFieldError (value : String) : Option String :=
  if value.length > 100 then some "max_length 100" else none

/-- Validation of `stock`: the declared DecimalField carries no min_value, so
only the `validate_stock` hook applies. -/
def stockFieldError (value : Int) : Option String :=
  validate_stock value

/-- Built-in validation of `precio_1`
(`DecimalField(..., min_value=0)`, serializers.py line 164). -/
def precio1FieldError (value : Int) : Option String :=
  if value < 0 then some "Ensure this value is greater than or equal to 0."
  else none

/-- Wrap one field's validation outcome as a fragment of the field-keyed
error map. -/
def fieldErr (field : String) (r : Option String) : List (String × String) :=
  match r with
  | some m => [(field, m)]
  | none => []

/-- The collected field-level errors of `ArticuloCreateSerializer`, keyed by
field name. -/
def articuloCreateFieldErrors (db : DB) (inp : ArticuloCreateInput) :
    List (String × String) :=
  fieldErr "codigo_articulo" (codigoFieldError db inp.codigo_articulo) ++
  fieldErr "codigo_barras" (codigoBarrasFieldError inp.codigo_barras) ++
  fieldErr "descripcion" (descripcionFieldError inp.descripcion) ++
  fieldErr "presentacion" (presentacionFieldError inp.presentacion) ++
  fieldErr "stock" (stockFieldError inp.stock) ++
  fieldErr "precio_1" (precio1FieldError inp.precio_1)

/-- Object-level `validate` (serializers.py lines 209-239): the group must
exist, the line must exist, and the line's parent group must equal the
supplied `grupo_id`; each failure raises a one-entry error map keyed to the
offending field. -/
def articuloObjectValidate (db : DB) (inp : ArticuloCreateInput) :
    Option (String × String) :=
  if db.grupos.any (fun g => g.grupo_id == inp.grupo_id) then
    match db.lineas.find? (fun l => l.linea_id == inp.linea_id) with
    | some linea =>
        if linea.grupo = inp.grupo_id then none
        else some ("linea_id", "La línea seleccionada no pertenece al grupo.")
    | none => some ("linea_id", "La línea seleccionada no existe.")
  else
    some ("grupo_id", "El grupo seleccionado no existe.")

/-- The serializer's `is_valid` pipeline: field errors first (collected into
the error map), object-level `validate` only when no field erred.
`validate` and the `validate_<field>` hooks return the data unchanged. -/
def articuloCreateRunValidation (db : DB) (inp : ArticuloCreateInput) :
    Except (List (String × String)) ArticuloCreateInput :=
  if (articuloCreateFieldErrors db inp).isEmpty then
    match articuloObjectValidate db inp with
    | some e => .error [e]
    | none => .ok inp
  else
    .error (articuloCreateFieldErrors db inp)

/-- `ArticuloCreateSerializer.create` (serializers.py lines 241-269): pop
`precio_1`, `grupo_id`, `linea_id`; create the `Articulo` row with a fresh
uuid and the remaining validated data; then create the `ListaPrecios` row
supplying only `articulo` and `precio_1` — every other price tier is left
unpopulated. -/
def articuloCreate (db : DB) (d : ArticuloCreateInput) (newId : Nat) :
    DB × Articulo :=
  let articulo : Articulo :=
    { articulo_id := newId
      codigo_articulo := d.codigo_articulo
      codigo_barras := d.codigo_barras
      descripcion := d.descripcion
      presentacion := d.presentacion
      grupo := d.grupo_id
      linea := d.linea_id
      estado := 1
      stock := d.stock
      imagen := none }
  let lista : ListaPrecios :=
    { articulo := newId
      precio_1 := d.precio_1
      precio_2 := none
      precio_3 := none
      precio_4 := none
      precio_compra := none
      precio_costo := none }
  ({ db with
      articulos := db.articulos ++ [articulo]
      listas := db.listas ++ [lista] }, articulo)

/-- The serializer's save path: validate, and only on success run `create`.
On a validation error nothing is written — no new database state exists. -/
def articuloCreateSave (db : DB) (inp : ArticuloCreateInput) (newId : Nat) :
    Except (List (String × String)) (DB × Articulo) :=
  match articuloCreateRunValidation db inp with
  | .error es => .error es
  | .ok d => .ok (articuloCreate db d newId)

/-! ### The first `ArticuloSerializer` (serializers.py lines 7-25)

A plain `Serializer` whose `stock` field is
`DecimalField(max_digits=12, decimal_places=2, default=0)` with NO
min_value and no `validate_stock` hook, and whose `update` copies every
supplied value onto the instance unchecked. -/

/-- A partial-update payload for the plain serializer: `none` means the
field was not supplied, so `validated_data.get(field, current)` keeps the
current value. -/
structure ArticuloUpdateInput where
  codigo_articulo : Option String
  codigo_barras : Option String
  descripcion : Option String
  presentacion : Option String
  stock : Option Int
deriving DecidableEq, Repr

/-- Field validation of the plain `ArticuloSerializer` (lines 8-13):
CharField max_length checks only; the `stock` DecimalField declares no
min_value, so no sign check exists on this path. -/
def articuloSerializerFieldErrors (inp : ArticuloUpdateInput) :
    List (String × String) :=
  fieldErr "codigo_articulo"
    (match inp.codigo_articulo with
     | some v => if v.length > 25 then some "max_length 25" else none
     | none => none) ++
  fieldErr "codigo_barras"
    (match inp.codigo_barras with
     | some v => if v.length > 25 then some "max_length 25" else none
     | none => none) ++
  fieldErr "descripcion"
    (match inp.descripcion with
     | some v => if v.length > 150 then some "max_length 150" else none
     | none => none) ++
  fieldErr "presentacion"
    (match inp.presentacion with
     | some v => if v.length > 100 then some "max_length 100" else none
     | none => none)

/-- `ArticuloSerializer.update` (serializers.py lines 18-25):
`validated_data.get(field, current)` for each field, then save. -/
def articuloUpdate (inst : Articulo) (d : ArticuloUpdateInput) : Articulo :=
  { inst with
      codigo_articulo := d.codigo_articulo.getD inst.codigo_articulo
      codigo_barras := d.codigo_barras.getD inst.codigo_barras
      descripcion := d.descripcion.getD inst.descripcion
      presentacion := d.presentacion.getD inst.presentacion
      stock := d.stock.getD inst.stock }

/-! ### `ItemOrdenSerializer` (serializers.py lines 137-145)

A `ModelSerializer` over `ItemOrdenCompraCliente`; the `cantidad` field is
generated from the model's `PositiveIntegerField`, which the framework maps
to an integer field with min_value 0: negative values are rejected, zero is
accepted. -/

/-- Validation of the generated `cantidad` field: min_value 0 from
`PositiveIntegerField`. -/
def itemCantidadFieldError (value : Int) : Option String :=
  if value < 0 then some "Ensure this value is greater than or equal to 0."
  else none

/-! ## Shared lemmas -/

/-- The attribute name `"listaprecio"` requested by `ItemOrdenCompraCliente.save`
is not the declared reverse accessor, so the lookup always fails. -/
theorem articuloGetattr_listaprecio (db : DB) (a : Nat) :
    articuloGetattr db a "listaprecio" = none := by
  unfold articuloGetattr
  rw [if_neg (by decide)]

/-- Because the price-list lookup always fails, `ItemOrdenCompraCliente.save`
reduces to setting `total_item := cantidad * precio_unitario` with
`precio_unitario` untouched. -/
theorem itemComputeSave_eq (db : DB) (it : ItemOrdenCompraCliente) :
    itemComputeSave db it =
      { it with total_item := (it.cantidad : Int) * it.precio_unitario } := by
  simp only [itemComputeSave, articuloGetattr_listaprecio]
  split <;> rfl

/-- Every order row matching the id after `setImporte` carries the written
total. -/
theorem mem_setImporte (l : List OrdenCompraCliente) (p : Nat) (t : Int)
    (o : OrdenCompraCliente) (ho : o ∈ setImporte l p t)
    (hp : o.nro_pedido = p) : o.importe = t := by
  unfold setImporte at ho
  obtain ⟨x, hx, hfx⟩ := List.mem_map.mp ho
  by_cases h : x.nro_pedido = p
  · rw [if_pos h] at hfx
    rw [← hfx]
  · rw [if_neg h] at hfx
    rw [← hfx] at hp
    exact absurd hp h

/-- `actualizar_total` touches only the `ordenes` table. -/
theorem itemsOf_actualizar (db : DB) (p q : Nat) :
    itemsOf (actualizar_total db p) q = itemsOf db q := rfl

/-- `itemComputeSave` never changes the owning order. -/
theorem itemComputeSave_pedido (db : DB) (it : ItemOrdenCompraCliente) :
    (itemComputeSave db it).pedido = it.pedido := by
  rw [itemComputeSave_eq]

/-! ## C1 -/

/-- Concrete group for the C1 scenario. -/
def c1grupo : GrupoArticulo :=
  { grupo_id := 1, codigo_grupo := "G1", nombre_grupo := "Grupo 1", estado := 1 }

/-- Concrete line for the C1 scenario. -/
def c1linea : LineaArticulo :=
  { linea_id := 2, codigo_linea := "L1", grupo := 1, nombre_linea := "Linea 1",
    estado := 1 }

/-- Concrete article for the C1 scenario. -/
def c1articulo : Articulo :=
  { articulo_id := 7, codigo_articulo := "ART1", codigo_barras := "111"
    descripcion := "Articulo uno", presentacion := "unidad", grupo := 1
    linea := 2, estado := 1, stock := 10, imagen := none }

/-- Price list of the C1 article, with `precio_1 = 10.00` (1000 hundredths). -/
def c1lista : ListaPrecios :=
  { articulo := 7, precio_1 := 1000, precio_2 := none, precio_3 := none
    precio_4 := none, precio_compra := none, precio_costo := none }

/-- Order header for the C1 scenario. -/
def c1orden : OrdenCompraCliente :=
  { nro_pedido := 1, cliente := 1, vendedor := 1, importe := 0, estado := 1,
    notas := "" }

/-- Database for the C1 scenario: the article HAS a price list. -/
def c1db : DB :=
  { grupos := [c1grupo], lineas := [c1linea], articulos := [c1articulo],
    listas := [c1lista], ordenes := [c1orden], items := [] }

/-- Order item with `precio_unitario = 0` and `cantidad = 2` referencing the
priced article. -/
def c1item : ItemOrdenCompraCliente :=
  { item_id := 31, pedido := 1, nro_item := 1, articulo := 7, cantidad := 2,
    precio_unitario := 0, total_item := 0, estado := 1 }

/-- C1: the claim says the save substitutes `precio_1 = 10.00` and computes
`total_item = cantidad × 10.00 = 20.00` for a zero-priced item referencing
an article whose price list has `precio_1 = 10.00`.  The code at this input
does not: the price list exists under the declared reverse accessor
`"articulo_lista"`, but the save reads attribute `"listaprecio"`, the
lookup fails, the bare except swallows it, and the saved item keeps
`precio_unitario = 0` and `total_item = 0` (values in hundredths). -/
theorem c1_price_fallback_dead :
    articuloGetattr c1db 7 "articulo_lista" = some c1lista ∧
    articuloGetattr c1db 7 "listaprecio" = none ∧
    (itemSave c1db c1item).snd.precio_unitario = 0 ∧
    (itemSave c1db c1item).snd.total_item = 0 ∧
    ¬ ((itemSave c1db c1item).snd.precio_unitario = 1000 ∧
       (itemSave c1db c1item).snd.total_item = 2000) := by
  decide

/-! ## C2 -/

/-- C2: after every save of an order item, every matching parent-order row
carries `importe` equal to the sum of `total_item` over ALL items currently
owned by that order — no filtering on the item `estado`. -/
theorem itemSave_importe_eq_sum (db : DB) (it : ItemOrdenCompraCliente)
    (o : OrdenCompraCliente) (ho : o ∈ (itemSave db it).fst.ordenes)
    (hp : o.nro_pedido = it.pedido) :
    o.importe =
      ((itemsOf (itemSave db it).fst it.pedido).map
        (fun x => x.total_item)).sum := by
  have hped := itemComputeSave_pedido db it
  simp only [itemSave] at ho ⊢
  rw [hped] at ho ⊢
  rw [itemsOf_actualizar]
  exact mem_setImporte _ _ _ o ho hp

/-- Order header for the C2 aggregation scenario, starting at `importe = 0`. -/
def c2orden : OrdenCompraCliente :=
  { nro_pedido := 1, cliente := 1, vendedor := 1, importe := 0, estado := 1,
    notas := "" }

/-- Empty-order database for the C2 scenario. -/
def c2db0 : DB :=
  { grupos := [], lineas := [], articulos := [], listas := [],
    ordenes := [c2orden], items := [] }

/-- First item: total `5.00` (500 hundredths). -/
def c2item1 : ItemOrdenCompraCliente :=
  { item_id := 11, pedido := 1, nro_item := 1, articulo := 7, cantidad := 1,
    precio_unitario := 500, total_item := 0, estado := 1 }

/-- Second item: total `7.50`; its `estado` differs from the others, showing
that inactive items are summed all the same. -/
def c2item2 : ItemOrdenCompraCliente :=
  { item_id := 12, pedido := 1, nro_item := 2, articulo := 7, cantidad := 1,
    precio_unitario := 750, total_item := 0, estado := 2 }

/-- Third item: total `2.50`. -/
def c2item3 : ItemOrdenCompraCliente :=
  { item_id := 13, pedido := 1, nro_item := 3, articulo := 7, cantidad := 1,
    precio_unitario := 250, total_item := 0, estado := 1 }

/-- Database after saving the first item. -/
def c2db1 : DB := (itemSave c2db0 c2item1).fst

/-- Database after saving the second item. -/
def c2db2 : DB := (itemSave c2db1 c2item2).fst

/-- Database after saving the third item. -/
def c2db3 : DB := (itemSave c2db2 c2item3).fst

/-- The order row as stored after the third save. -/
def c2ordenFinal : OrdenCompraCliente := { c2orden with importe := 1500 }

/-- C2 witness: on the concrete 5.00 / 7.50 / 2.50 sequence the theorem
applies and the final `importe` is `15.00` (1500 hundredths); the stored
totals after the first and second saves are `5.00` and `12.50`. -/
theorem itemSave_importe_eq_sum_witness :
    (c2ordenFinal ∈ c2db3.ordenes ∧ c2ordenFinal.nro_pedido = c2item3.pedido) ∧
    c2ordenFinal.importe =
      ((itemsOf c2db3 c2item3.pedido).map (fun x => x.total_item)).sum ∧
    c2ordenFinal.importe = 1500 ∧
    c2db1.ordenes.map (fun o => o.importe) = [500] ∧
    c2db2.ordenes.map (fun o => o.importe) = [1250] := by
  refine ⟨⟨by decide, by decide⟩, ?_, by decide, by decide, by decide⟩
  exact itemSave_importe_eq_sum c2db2 c2item3 c2ordenFinal (by decide) (by decide)

/-! ## Shared lemmas on the article-creation pipeline -/

/-- A successful validation returns the input data unchanged (the hooks and
object-level `validate` all return their data as-is). -/
theorem articuloCreateRunValidation_ok (db : DB) (inp d : ArticuloCreateInput)
    (h : articuloCreateRunValidation db inp = .ok d) : d = inp := by
  unfold articuloCreateRunValidation at h
  by_cases hfe : (articuloCreateFieldErrors db inp).isEmpty = true
  · rw [if_pos hfe] at h
    cases hov : articuloObjectValidate db inp with
    | some e => rw [hov] at h; exact Except.noConfusion h
    | none => rw [hov] at h; exact (Except.ok.inj h).symm
  · rw [if_neg hfe] at h
    exact Except.noConfusion h

/-- When some field erred, the save fails with exactly the field-keyed error
map and writes nothing. -/
theorem articuloCreateSave_field_error (db : DB) (inp : ArticuloCreateInput)
    (newId : Nat) (hf : (articuloCreateFieldErrors db inp).isEmpty = false) :
    articuloCreateSave db inp newId = .error (articuloCreateFieldErrors db inp) := by
  unfold articuloCreateSave articuloCreateRunValidation
  rw [hf]
  rfl

/-- When no field erred but object-level `validate` raised, the save fails
with that single error and writes nothing. -/
theorem articuloCreateSave_object_error (db : DB) (inp : ArticuloCreateInput)
    (newId : Nat) (e : String × String)
    (hf : articuloCreateFieldErrors db inp = [])
    (hov : articuloObjectValidate db inp = some e) :
    articuloCreateSave db inp newId = .error [e] := by
  unfold articuloCreateSave articuloCreateRunValidation
  rw [hf, hov]
  rfl

/-! ## C3 -/

/-- C3: every input accepted by `ArticuloCreateSerializer` creates an article
whose stored code, description and stock equal the validated input, together
with a price-list row seeded with the supplied `precio_1` and no other
price tier populated. -/
theorem articuloCreate_stores_input (db : DB) (inp : ArticuloCreateInput)
    (newId : Nat) (h : (articuloCreateRunValidation db inp).isOk = true) :
    ∃ db2 a, articuloCreateSave db inp newId = .ok (db2, a) ∧
      a.codigo_articulo = inp.codigo_articulo ∧
      a.descripcion = inp.descripcion ∧
      a.stock = inp.stock ∧
      a ∈ db2.articulos ∧
      ({ articulo := newId, precio_1 := inp.precio_1, precio_2 := none,
         precio_3 := none, precio_4 := none, precio_compra := none,
         precio_costo := none } : ListaPrecios) ∈ db2.listas := by
  have hd : articuloCreateRunValidation db inp = .ok inp := by
    cases hv : articuloCreateRunValidation db inp with
    | error es => rw [hv] at h; exact Bool.noConfusion h
    | ok d => rw [articuloCreateRunValidation_ok db inp d hv]
  refine ⟨(articuloCreate db inp newId).fst, (articuloCreate db inp newId).snd,
    ?_, rfl, rfl, rfl, ?_, ?_⟩
  · unfold articuloCreateSave
    rw [hd]
  · unfold articuloCreate
    simp
  · unfold articuloCreate
    simp

/-- Group for the C3 scenario. -/
def c3grupo : GrupoArticulo :=
  { grupo_id := 1, codigo_grupo := "G1", nombre_grupo := "Grupo 1", estado := 1 }

/-- Line for the C3 scenario, belonging to group 1. -/
def c3linea : LineaArticulo :=
  { linea_id := 2, codigo_linea := "L1", grupo := 1, nombre_linea := "Linea 1",
    estado := 1 }

/-- Database for the C3 scenario. -/
def c3db : DB :=
  { grupos := [c3grupo], lineas := [c3linea], articulos := [], listas := [],
    ordenes := [], items := [] }

/-- A valid creation input: code of length 4, description of length 12,
non-negative stock and seed price `19.90` (1990 hundredths). -/
def c3inp : ArticuloCreateInput :=
  { codigo_articulo := "ART2", codigo_barras := "222",
    descripcion := "Articulo dos", presentacion := "unidad",
    grupo_id := 1, linea_id := 2, stock := 500, precio_1 := 1990 }

/-- C3 witness: the concrete valid input is accepted and the theorem yields
the created rows. -/
theorem articuloCreate_stores_input_witness :
    ∃ db2 a, articuloCreateSave c3db c3inp 42 = .ok (db2, a) ∧
      a.codigo_articulo = c3inp.codigo_articulo ∧
      a.descripcion = c3inp.descripcion ∧
      a.stock = c3inp.stock ∧
      a ∈ db2.articulos ∧
      ({ articulo := 42, precio_1 := c3inp.precio_1, precio_2 := none,
         precio_3 := none, precio_4 := none, precio_compra := none,
         precio_costo := none } : ListaPrecios) ∈ db2.listas :=
  articuloCreate_stores_input c3db c3inp 42 (by decide)

/-! ## C4 -/

/-- C4: with all field-level checks passing, the cross-field `validate`
rejects — with no record written, since the error short-circuits `create` —
(a) a line whose parent group differs from the supplied `grupo_id`, keyed to
`linea_id`; (b) a missing group, keyed to `grupo_id`; (c) a missing line,
keyed to `linea_id`. -/
theorem articuloCreate_relational_validation (db : DB)
    (inp : ArticuloCreateInput) (newId : Nat)
    (hf : articuloCreateFieldErrors db inp = []) :
    (∀ l, db.grupos.any (fun g => g.grupo_id == inp.grupo_id) = true →
      db.lineas.find? (fun x => x.linea_id == inp.linea_id) = some l →
      l.grupo ≠ inp.grupo_id →
      articuloCreateSave db inp newId =
        .error [("linea_id", "La línea seleccionada no pertenece al grupo.")]) ∧
    (db.grupos.any (fun g => g.grupo_id == inp.grupo_id) = false →
      articuloCreateSave db inp newId =
        .error [("grupo_id", "El grupo seleccionado no existe.")]) ∧
    (db.grupos.any (fun g => g.grupo_id == inp.grupo_id) = true →
      db.lineas.find? (fun x => x.linea_id == inp.linea_id) = none →
      articuloCreateSave db inp newId =
        .error [("linea_id", "La línea seleccionada no existe.")]) := by
  refine ⟨?_, ?_, ?_⟩
  · intro l hg hl hm
    refine articuloCreateSave_object_error db inp newId _ hf ?_
    unfold articuloObjectValidate
    rw [if_pos hg, hl]
    simp [hm]
  · intro hg
    refine articuloCreateSave_object_error db inp newId _ hf ?_
    unfold articuloObjectValidate
    rw [hg]
    rfl
  · intro hg hl
    refine articuloCreateSave_object_error db inp newId _ hf ?_
    unfold articuloObjectValidate
    rw [if_pos hg, hl]

/-- Group / line fixtures for the C4 scenario: line 2 belongs to group 1,
but the input supplies group 9 (also present), so the line's parent group
differs. -/
def c4grupo1 : GrupoArticulo :=
  { grupo_id := 1, codigo_grupo := "G1", nombre_grupo := "Grupo 1", estado := 1 }

/-- The other group supplied by the C4 input. -/
def c4grupo9 : GrupoArticulo :=
  { grupo_id := 9, codigo_grupo := "G9", nombre_grupo := "Grupo 9", estado := 1 }

/-- A line belonging to group 1, not to the supplied group 9. -/
def c4linea : LineaArticulo :=
  { linea_id := 2, codigo_linea := "L1", grupo := 1, nombre_linea := "Linea 1",
    estado := 1 }

/-- Database for the C4 scenario. -/
def c4db : DB :=
  { grupos := [c4grupo1, c4grupo9], lineas := [c4linea], articulos := [],
    listas := [], ordenes := [], items := [] }

/-- Input referencing group 9 and line 2 (whose parent group is 1). -/
def c4inp : ArticuloCreateInput :=
  { codigo_articulo := "ART4", codigo_barras := "444",
    descripcion := "Articulo cuatro", presentacion := "unidad",
    grupo_id := 9, linea_id := 2, stock := 0, precio_1 := 100 }

/-- C4 witness: the mismatching input fails with the error keyed to
`linea_id`. -/
theorem articuloCreate_relational_validation_witness :
    articuloCreateSave c4db c4inp 43 =
      .error [("linea_id", "La línea seleccionada no pertenece al grupo.")] :=
  (articuloCreate_relational_validation c4db c4inp 43 (by decide)).1
    c4linea (by decide) (by decide) (by decide)

/-! ## C5 -/

/-- C5: an input whose code duplicates an existing article code, or is
shorter than 4 characters, fails with an error keyed `codigo_articulo`;
`create` never runs, so no article and no price-list row is written. -/
theorem articuloCreate_rejects_bad_codigo (db : DB) (inp : ArticuloCreateInput)
    (newId : Nat)
    (h : db.articulos.any
          (fun a => a.codigo_articulo == inp.codigo_articulo) = true ∨
        inp.codigo_articulo.length < 4) :
    ∃ es, articuloCreateSave db inp newId = .error es ∧
      ∃ m, ("codigo_articulo", m) ∈ es := by
  have hc : ∃ m, codigoFieldError db inp.codigo_articulo = some m := by
    unfold codigoFieldError validate_codigo_articulo
    by_cases h25 : inp.codigo_articulo.length > 25
    · rw [if_pos h25]
      exact ⟨_, rfl⟩
    · rw [if_neg h25]
      rcases h with h | h
      · rw [if_pos h]
        exact ⟨_, rfl⟩
      · by_cases hdup : db.articulos.any
            (fun a => a.codigo_articulo == inp.codigo_articulo) = true
        · rw [if_pos hdup]
          exact ⟨_, rfl⟩
        · rw [if_neg hdup, if_pos h]
          exact ⟨_, rfl⟩
  obtain ⟨m, hm⟩ := hc
  have hmem : ("codigo_articulo", m) ∈ articuloCreateFieldErrors db inp := by
    unfold articuloCreateFieldErrors fieldErr
    rw [hm]
    simp [List.mem_append]
  have hne : (articuloCreateFieldErrors db inp).isEmpty = false := by
    cases he : articuloCreateFieldErrors db inp with
    | nil => rw [he] at hmem; cases hmem
    | cons a l => rfl
  exact ⟨articuloCreateFieldErrors db inp,
    articuloCreateSave_field_error db inp newId hne, m, hmem⟩

/-- An article whose code `"ABCD"` is already taken, for the C5 scenario. -/
def c5articulo : Articulo :=
  { articulo_id := 3, codigo_articulo := "ABCD", codigo_barras := "333"
    descripcion := "Articulo tres", presentacion := "unidad", grupo := 1
    linea := 2, estado := 1, stock := 0, imagen := none }

/-- Database for the C5 scenario. -/
def c5db : DB :=
  { grupos := [], lineas := [], articulos := [c5articulo], listas := [],
    ordenes := [], items := [] }

/-- Input reusing the existing code `"ABCD"`. -/
def c5inp : ArticuloCreateInput :=
  { codigo_articulo := "ABCD", codigo_barras := "555",
    descripcion := "Articulo cinco", presentacion := "unidad",
    grupo_id := 1, linea_id := 2, stock := 0, precio_1 := 100 }

/-- C5 witness: the duplicate-code input fails with an error keyed
`codigo_articulo`. -/
theorem articuloCreate_rejects_bad_codigo_witness :
    ∃ es, articuloCreateSave c5db c5inp 44 = .error es ∧
      ∃ m, ("codigo_articulo", m) ∈ es :=
  articuloCreate_rejects_bad_codigo c5db c5inp 44 (Or.inl (by decide))

/-! ## C6 -/

/-- C6 (amended): only the creation path enforces non-negative stock — an
`ArticuloCreateSerializer` input with `stock < 0` fails with an error keyed
`stock` and writes nothing.  The update path of the plain
`ArticuloSerializer` has no such check (see the counterexample below). -/
theorem articuloCreate_rejects_negative_stock (db : DB)
    (inp : ArticuloCreateInput) (newId : Nat) (h : inp.stock < 0) :
    ∃ es, articuloCreateSave db inp newId = .error es ∧
      ∃ m, ("stock", m) ∈ es := by
  have hs : stockFieldError inp.stock = some "El stock no puede ser negativo." := by
    unfold stockFieldError validate_stock
    rw [if_pos h]
  have hmem : ("stock", "El stock no puede ser negativo.") ∈
      articuloCreateFieldErrors db inp := by
    unfold articuloCreateFieldErrors fieldErr
    rw [hs]
    simp [List.mem_append]
  have hne : (articuloCreateFieldErrors db inp).isEmpty = false := by
    cases he : articuloCreateFieldErrors db inp with
    | nil => rw [he] at hmem; cases hmem
    | cons a l => rfl
  exact ⟨articuloCreateFieldErrors db inp,
    articuloCreateSave_field_error db inp newId hne, _, hmem⟩

/-- C6 witness: a creation input with `stock = -1.00` is rejected with an
error keyed `stock`. -/
theorem articuloCreate_rejects_negative_stock_witness :
    ∃ es, articuloCreateSave
        { grupos := [], lineas := [], articulos := [], listas := [],
          ordenes := [], items := [] }
        { codigo_articulo := "ART6", codigo_barras := "666",
          descripcion := "Articulo seis", presentacion := "unidad",
          grupo_id := 1, linea_id := 2, stock := -100, precio_1 := 100 }
        45 = .error es ∧
      ∃ m, ("stock", m) ∈ es :=
  articuloCreate_rejects_negative_stock _ _ 45 (by decide)

/-- An article with stock `3.00`, target of the C6 update counterexample. -/
def c6articulo : Articulo :=
  { articulo_id := 6, codigo_articulo := "ART6", codigo_barras := "666"
    descripcion := "Articulo seis", presentacion := "unidad", grupo := 1
    linea := 2, estado := 1, stock := 300, imagen := none }

/-- An update payload supplying only `stock = -1.00`. -/
def c6upd : ArticuloUpdateInput :=
  { codigo_articulo := none, codigo_barras := none, descripcion := none,
    presentacion := none, stock := some (-100) }

/-- C6 counterexample: the plain `ArticuloSerializer` accepts the payload
(no field errors — its `stock` field has no min_value and the serializer has
no `validate_stock` hook) and `update` stores the negative stock, so the
claim that "an existing article's stock cannot be set below zero" is false
on the code. -/
theorem c6_update_stores_negative_stock :
    articuloSerializerFieldErrors c6upd = [] ∧
    (articuloUpdate c6articulo c6upd).stock = -100 ∧
    (articuloUpdate c6articulo c6upd).stock < 0 := by
  decide

/-! ## C7 -/

/-- C7 (amended): the `cantidad` field generated from `PositiveIntegerField`
enforces only non-negativity: every negative quantity is rejected, while
quantity 0 passes validation (and, per the counterexample, is persisted with
`total_item = 0`). -/
theorem item_cantidad_nonneg_zero_accepted :
    (∀ v : Int, v < 0 → (itemCantidadFieldError v).isSome = true) ∧
    itemCantidadFieldError 0 = none := by
  constructor
  · intro v hv
    unfold itemCantidadFieldError
    rw [if_pos hv]
    rfl
  · decide

/-- C7 witness: quantity `-1` is rejected and quantity `0` is accepted. -/
theorem item_cantidad_nonneg_zero_accepted_witness :
    (itemCantidadFieldError (-1)).isSome = true ∧
    itemCantidadFieldError 0 = none :=
  ⟨item_cantidad_nonneg_zero_accepted.1 (-1) (by decide),
   item_cantidad_nonneg_zero_accepted.2⟩

/-- Order header for the C7 scenario. -/
def c7orden : OrdenCompraCliente :=
  { nro_pedido := 4, cliente := 1, vendedor := 1, importe := 0, estado := 1,
    notas := "" }

/-- Database for the C7 scenario. -/
def c7db : DB :=
  { grupos := [], lineas := [], articulos := [], listas := [],
    ordenes := [c7orden], items := [] }

/-- An order item with `cantidad = 0` and unit price `4.00`. -/
def c7item : ItemOrdenCompraCliente :=
  { item_id := 41, pedido := 4, nro_item := 1, articulo := 9, cantidad := 0,
    precio_unitario := 400, total_item := 0, estado := 1 }

/-- C7 counterexample: an attempt to create an order item with quantity 0 is
NOT rejected — the quantity field accepts 0 and the save persists the row
(with `total_item = 0`), refuting the claim as stated. -/
theorem c7_zero_cantidad_persisted :
    itemCantidadFieldError 0 = none ∧
    (itemSave c7db c7item).fst.items.any
      (fun x => x.item_id == 41 && x.cantidad == 0) = true ∧
    (itemSave c7db c7item).snd.total_item = 0 := by
  decide

/-! ## C8 -/

/-- Recomputing the instance fields of an already-saved item changes
nothing: the total is recomputed from the unchanged quantity and price, and
the dead fallback never touches the price. -/
theorem itemComputeSave_idem (db2 db : DB) (it : ItemOrdenCompraCliente) :
    itemComputeSave db2 (itemComputeSave db it) = itemComputeSave db it := by
  rw [itemComputeSave_eq db it, itemComputeSave_eq db2]

/-- A row matching the saved primary key is present after any upsert. -/
theorem upsertList_any (l : List ItemOrdenCompraCliente)
    (it : ItemOrdenCompraCliente) :
    (upsertList l it).any (fun x => x.item_id == it.item_id) = true := by
  unfold upsertList
  by_cases h : l.any (fun x => x.item_id == it.item_id) = true
  · rw [if_pos h]
    obtain ⟨x, hx, hbx⟩ := List.any_eq_true.mp h
    refine List.any_eq_true.mpr ⟨it, ?_, by simp⟩
    refine List.mem_map.mpr ⟨x, hx, ?_⟩
    rw [if_pos (by simpa using hbx)]
  · rw [if_neg h]
    exact List.any_eq_true.mpr ⟨it, by simp, by simp⟩

/-- After an upsert, every row carrying the saved primary key IS the saved
row. -/
theorem upsertList_matching_eq (l : List ItemOrdenCompraCliente)
    (it x : ItemOrdenCompraCliente) (hx : x ∈ upsertList l it)
    (hid : x.item_id = it.item_id) : x = it := by
  unfold upsertList at hx
  by_cases h : l.any (fun y => y.item_id == it.item_id) = true
  · rw [if_pos h] at hx
    obtain ⟨y, hy, hfy⟩ := List.mem_map.mp hx
    by_cases hcy : y.item_id = it.item_id
    · rw [if_pos hcy] at hfy
      exact hfy.symm
    · rw [if_neg hcy] at hfy
      rw [← hfy] at hid
      exact absurd hid hcy
  · rw [if_neg h] at hx
    rcases List.mem_append.mp hx with hxl | hxr
    · exact absurd (List.any_eq_true.mpr ⟨x, hxl, by simp [hid]⟩) h
    · simpa using hxr

/-- Replacing the matching rows is the identity when every matching row
already equals the replacement. -/
theorem map_replace_self (l : List ItemOrdenCompraCliente)
    (it : ItemOrdenCompraCliente)
    (h : ∀ x ∈ l, x.item_id = it.item_id → x = it) :
    l.map (fun x => if x.item_id = it.item_id then it else x) = l := by
  induction l with
  | nil => rfl
  | cons a l ih =>
      simp only [List.map_cons]
      rw [ih (fun x hx => h x (List.mem_cons_of_mem a hx))]
      by_cases ha : a.item_id = it.item_id
      · rw [if_pos ha, h a (List.mem_cons_self a l) ha]
      · rw [if_neg ha]

/-- When a matching row exists, the upsert is the in-place replacement. -/
theorem upsertList_of_any (l : List ItemOrdenCompraCliente)
    (it : ItemOrdenCompraCliente)
    (h : l.any (fun x => x.item_id == it.item_id) = true) :
    upsertList l it =
      l.map (fun x => if x.item_id = it.item_id then it else x) := by
  unfold upsertList
  rw [if_pos h]

/-- Upserting the same row twice equals upserting it once. -/
theorem upsertList_idem (l : List ItemOrdenCompraCliente)
    (it : ItemOrdenCompraCliente) :
    upsertList (upsertList l it) it = upsertList l it := by
  rw [upsertList_of_any _ it (upsertList_any l it)]
  exact map_replace_self _ it (fun x hx => upsertList_matching_eq l it x hx)

/-- Writing the same total twice equals writing it once. -/
theorem setImporte_idem (l : List OrdenCompraCliente) (p : Nat) (t : Int) :
    setImporte (setImporte l p t) p t = setImporte l p t := by
  unfold setImporte
  rw [List.map_map]
  induction l with
  | nil => rfl
  | cons a l ih =>
      simp only [List.map_cons]
      rw [ih]
      by_cases ha : a.nro_pedido = p
      · simp [Function.comp, ha]
      · simp [Function.comp, ha]

/-- C8: re-saving the instance returned by a save — whose `cantidad` and
`precio_unitario` are exactly those just stored — returns the same database
state and the same instance: `total_item` and the parent order's `importe`
are unchanged. -/
theorem itemSave_idempotent (db : DB) (it : ItemOrdenCompraCliente) :
    itemSave (itemSave db it).fst (itemSave db it).snd = itemSave db it := by
  have hc : itemComputeSave (itemSave db it).fst (itemSave db it).snd
      = (itemSave db it).snd :=
    itemComputeSave_idem (itemSave db it).fst db it
  have hu : upsertItem (itemSave db it).fst (itemSave db it).snd
      = (itemSave db it).fst := by
    show { (itemSave db it).fst with
        items := upsertList (itemSave db it).fst.items (itemSave db it).snd }
      = (itemSave db it).fst
    rw [show upsertList (itemSave db it).fst.items (itemSave db it).snd
        = (itemSave db it).fst.items from
        upsertList_idem db.items (itemComputeSave db it)]
  have ha : actualizar_total (itemSave db it).fst (itemSave db it).snd.pedido
      = (itemSave db it).fst := by
    show { (itemSave db it).fst with
        ordenes := setImporte (itemSave db it).fst.ordenes
          (itemSave db it).snd.pedido
          (((itemsOf (itemSave db it).fst (itemSave db it).snd.pedido).map
            (fun x => x.total_item)).sum) }
      = (itemSave db it).fst
    rw [show setImporte (itemSave db it).fst.ordenes
          (itemSave db it).snd.pedido
          (((itemsOf (itemSave db it).fst (itemSave db it).snd.pedido).map
            (fun x => x.total_item)).sum)
        = (itemSave db it).fst.ordenes from
        setImporte_idem (upsertItem db (itemComputeSave db it)).ordenes
          (itemComputeSave db it).pedido _]
  show (actualizar_total
      (upsertItem (itemSave db it).fst
        (itemComputeSave (itemSave db it).fst (itemSave db it).snd))
      (itemComputeSave (itemSave db it).fst (itemSave db it).snd).pedido,
    itemComputeSave (itemSave db it).fst (itemSave db it).snd)
    = itemSave db it
  rw [hc, hu, ha]

/-! ## C9 -/

/-- C9: deleting an order item removes only the item row; the `ordenes`
table — and with it every stored `importe` — is untouched, because no
delete override or signal triggers `actualizar_total`.  The stored total
therefore still reflects the sum that included the deleted item until some
remaining item is next saved. -/
theorem itemDelete_preserves_ordenes (db : DB) (itemId : Nat) :
    (itemDelete db itemId).ordenes = db.ordenes ∧
    (itemDelete db itemId).items =
      db.items.filter (fun x => x.item_id != itemId) :=
  ⟨rfl, rfl⟩

/-! ## C10 -/

/-- C10: deleting an article not referenced by any order item succeeds and
removes, in the same operation, its article row and (by the declared
CASCADE) its price-list row; deleting a group or a line still referenced by
an article is rejected (RESTRICT). -/
theorem delete_cascade_and_restrict (db : DB) (aId gId lId : Nat)
    (ha : db.items.any (fun it => it.articulo == aId) = false)
    (hg : db.articulos.any (fun a => a.grupo == gId) = true)
    (hl : db.articulos.any (fun a => a.linea == lId) = true) :
    (∃ db2, articuloDelete db aId = .ok db2 ∧
      db2.articulos.all (fun a => a.articulo_id != aId) = true ∧
      db2.listas.all (fun lp => lp.articulo != aId) = true) ∧
    grupoDelete db gId = .error "RestrictedError" ∧
    lineaDelete db lId = .error "RestrictedError" := by
  refine ⟨⟨{ db with
      articulos := db.articulos.filter (fun a => a.articulo_id != aId),
      listas := db.listas.filter (fun lp => lp.articulo != aId) },
      ?_, ?_, ?_⟩, ?_, ?_⟩
  · unfold articuloDelete
    rw [ha]
    rfl
  · exact List.all_eq_true.mpr (fun a hain => (List.mem_filter.mp hain).2)
  · exact List.all_eq_true.mpr (fun lp hin => (List.mem_filter.mp hin).2)
  · unfold grupoDelete
    rw [hg]
    simp
  · unfold lineaDelete
    rw [hl]
    rfl

/-- Group fixture for the C10 scenario. -/
def c10grupo : GrupoArticulo :=
  { grupo_id := 1, codigo_grupo := "G1", nombre_grupo := "Grupo 1", estado := 1 }

/-- Line fixture for the C10 scenario, in group 1. -/
def c10linea : LineaArticulo :=
  { linea_id := 2, codigo_linea := "L1", grupo := 1, nombre_linea := "Linea 1",
    estado := 1 }

/-- Article 7, referencing group 1 and line 2. -/
def c10articulo : Articulo :=
  { articulo_id := 7, codigo_articulo := "ART7", codigo_barras := "777"
    descripcion := "Articulo siete", presentacion := "unidad", grupo := 1
    linea := 2, estado := 1, stock := 0, imagen := none }

/-- Price list of article 7. -/
def c10lista : ListaPrecios :=
  { articulo := 7, precio_1 := 100, precio_2 := none, precio_3 := none
    precio_4 := none, precio_compra := none, precio_costo := none }

/-- Database for the C10 scenario: no order item references article 7. -/
def c10db : DB :=
  { grupos := [c10grupo], lineas := [c10linea], articulos := [c10articulo],
    listas := [c10lista], ordenes := [], items := [] }

/-- C10 witness: deleting article 7 removes it and its price list; deleting
group 1 or line 2 (both referenced by article 7) is rejected. -/
theorem delete_cascade_and_restrict_witness :
    (∃ db2, articuloDelete c10db 7 = .ok db2 ∧
      db2.articulos.all (fun a => a.articulo_id != 7) = true ∧
      db2.listas.all (fun lp => lp.articulo != 7) = true) ∧
    grupoDelete c10db 1 = .error "RestrictedError" ∧
    lineaDelete c10db 2 = .error "RestrictedError" :=
  delete_cascade_and_restrict c10db 7 1 2 (by decide) (by decide) (by decide)

end Pos
